import Mathlib

set_option autoImplicit false

/-!
Shallow embedding of the step-timing / compute-drop controller and the
gradient-accumulation optimizer-step protocol of the BERT pretraining driver
(`PyTorch/nlp/pretraining/bert/run_pretraining.py` and `compute_timer.py`).

Wall-clock times are integers (a fixed time unit), gradient magnitudes and
the loss scale are rationals; raising an exception is modelled by a Bool
result component; tensor references are natural-number identifiers; the
device-synchronization machinery of `DeviceTimer._sync` is outside the model
(the observed elapsed time at each instrumentation hook is an input).
-/

namespace BertPretraining

/-- DeviceTimer state (compute_timer.py, class DeviceTimer).  The `events`
deque only serves device synchronization and does not influence any of the
control decisions modelled here, so it is omitted; `time.time()` readings are
supplied as arguments. -/
structure DeviceTimer where
  start_time : Option ℤ
  debug : Bool
  use_hpu : Bool
  enable_drop_compute : Bool
  dropped : Bool
  drop_threshold : ℤ
  deriving Repr, DecidableEq

/-- DeviceTimer.__init__: start_time None, enable_drop_compute False,
dropped False, drop_threshold 0. -/
def DeviceTimer.init (use_hpu : Bool) (debug : Bool) : DeviceTimer :=
  { start_time := none, debug := debug, use_hpu := use_hpu,
    enable_drop_compute := false, dropped := false, drop_threshold := 0 }

/-- DeviceTimer.is_started. -/
def DeviceTimer.is_started (t : DeviceTimer) : Bool :=
  t.start_time.isSome

/-- DeviceTimer.elapsed: 0 when never started, otherwise now - start_time. -/
def DeviceTimer.elapsed (t : DeviceTimer) (now : ℤ) : ℤ :=
  match t.start_time with
  | none => 0
  | some s => now - s

/-- DeviceTimer.start at wall-clock time `now`. -/
def DeviceTimer.start (t : DeviceTimer) (now : ℤ) : DeviceTimer :=
  { t with start_time := some now }

/-- DeviceTimer.reset: clears dropped and un-starts the timer. -/
def DeviceTimer.reset (t : DeviceTimer) : DeviceTimer :=
  { t with dropped := false, start_time := none }

/-- DeviceTimer.check_drop_compute_throw: returns the updated timer together
with whether ComputeTimeout was raised.  Not started: plain return (False).
Otherwise, when enable_drop_compute holds and the elapsed time strictly
exceeds drop_threshold, set dropped and raise. -/
def DeviceTimer.check_drop_compute_throw (t : DeviceTimer) (now : ℤ) :
    DeviceTimer × Bool :=
  if t.is_started = false then (t, false)
  else
    let current_time := t.elapsed now
    if t.enable_drop_compute = true ∧ current_time > t.drop_threshold then
      ({ t with dropped := true }, true)
    else
      (t, false)

/-- Example timer used by witnesses: started at time 0, drop enabled with
threshold 1. -/
def exTimer : DeviceTimer :=
  { start_time := some 0, debug := false, use_hpu := true,
    enable_drop_compute := true, dropped := false, drop_threshold := 1 }

/-- C4: check_drop_compute_throw is a no-op returning without raising when the
timer has not been started; otherwise it raises the ComputeTimeout iff the
guard is enabled and the elapsed time strictly exceeds the threshold, setting
`dropped := true` before raising, and leaves the timer unchanged when it does
not raise. -/
theorem c4_check_drop_compute_contract (t : DeviceTimer) (now : ℤ) :
    (t.start_time = none → t.check_drop_compute_throw now = (t, false)) ∧
    (t.start_time ≠ none →
      (((t.check_drop_compute_throw now).2 = true) ↔
        (t.enable_drop_compute = true ∧ t.elapsed now > t.drop_threshold)) ∧
      ((t.check_drop_compute_throw now).2 = true →
        (t.check_drop_compute_throw now).1 = { t with dropped := true }) ∧
      ((t.check_drop_compute_throw now).2 = false →
        (t.check_drop_compute_throw now).1 = t)) := by
  unfold DeviceTimer.check_drop_compute_throw
  constructor
  · intro h
    simp [DeviceTimer.is_started, h]
  · intro h
    have hs : t.is_started = true := by
      cases hst : t.start_time with
      | none => exact absurd hst h
      | some s => simp [DeviceTimer.is_started, hst]
    by_cases hc : t.enable_drop_compute = true ∧ t.elapsed now > t.drop_threshold
    · simp [hs, hc]
    · simp [hs, hc]

/-- Witness for C4 at a concrete started timer and a time past the
threshold. -/
theorem c4_check_drop_compute_contract_witness :
    (exTimer.check_drop_compute_throw 2).2 = true ∧
    (exTimer.check_drop_compute_throw 2).1 = { exTimer with dropped := true } := by
  have h := (c4_check_drop_compute_contract exTimer 2).2 (by
    simp [exTimer])
  have hr : (exTimer.check_drop_compute_throw 2).2 = true :=
    h.1.mpr ⟨rfl, by norm_num [exTimer, DeviceTimer.elapsed]⟩
  exact ⟨hr, h.2.1 hr⟩

/-- ComputeState (run_pretraining.py, dataclass ComputeState).  The
`computed_batch_size` one-element device tensor is a natural-number count. -/
structure ComputeState where
  computed_batch_size : ℕ
  start_compute : ℤ
  threshold : ℤ
  enable_drop : Bool
  mini_batch_size : ℕ
  deriving Repr, DecidableEq

/-- ComputeState.__init__: only `computed_batch_size` is initialized (to a
zero tensor); the remaining attributes take the dataclass field defaults. -/
def ComputeState.init : ComputeState :=
  { computed_batch_size := 0, start_compute := 0, threshold := 0,
    enable_drop := false, mini_batch_size := 0 }

/-- ComputeState.reset_state: begin a new macro-step's accounting, zeroing
the computed count. -/
def ComputeState.reset_state (_ : ComputeState) (compute_threshold : ℤ)
    (enable_drop : Bool) (start_compute : ℤ) (mini_batch_size : ℕ) :
    ComputeState :=
  { threshold := compute_threshold, enable_drop := enable_drop,
    start_compute := start_compute, mini_batch_size := mini_batch_size,
    computed_batch_size := 0 }

/-- A gradient cell: a rational magnitude plus a finiteness flag (`finite =
false` stands for an Inf/NaN produced by the external backward pass). -/
structure Grad where
  mag : ℚ
  finite : Bool
  deriving Repr, DecidableEq

/-- Scaling a gradient cell by a rational factor keeps its finiteness flag
(a non-finite value stays non-finite under apex multi_tensor_scale). -/
def scaleGrad (c : ℚ) (g : Grad) : Grad :=
  { mag := c * g.mag, finite := g.finite }

/-- Overflow scan: true iff some cell is non-finite.  This is what
amp_C.multi_tensor_scale records into the overflow buffer while scaling. -/
def hasOverflow (gs : List Grad) : Bool :=
  gs.any (fun g => !g.finite)

/-- Modelled from the spec: the external apex amp loss scaler
(`_amp_state.loss_scalers[0]`), which is not part of this repository.  Its
state keeps the loss scale, whether dynamic scaling is configured, the
reference (a tensor identifier) held in `_overflow_buf`, and the
`_overfloat_buf` attribute that line 763 of run_pretraining.py creates.
`update_scale` follows the spec's description of NumericOverflow handling:
on overflow the loss-scaling factor is halved when dynamic scaling is on,
and the overflow outcome is returned. -/
structure AmpScaler where
  loss_scale : ℚ
  dynamic : Bool
  overflow_buf : ℕ
  overfloat_buf : Option ℕ
  deriving Repr, DecidableEq

/-- Modelled from the spec: apex LossScaler.update_scale — reads the overflow
outcome recorded in the buffer currently referenced by `_overflow_buf`,
halves the loss scale on overflow when dynamic, returns whether overflow
occurred. -/
def AmpScaler.update_scale (s : AmpScaler) (overflow : Bool) :
    AmpScaler × Bool :=
  if overflow then
    ({ s with loss_scale := if s.dynamic then s.loss_scale / 2 else s.loss_scale },
     true)
  else
    (s, false)

/-- Per-process training state threaded through take_optimizer_step: model
parameters, the model parameters' gradients (`p.grad`, None when cleared),
the fp32 master gradients held by the amp optimizer
(`amp.master_params(optimizer)` gradients), the macro-step counter
`global_step`, the module-global `skipped_steps`, and the amp loss scaler. -/
structure TrainState where
  params : List ℚ
  grads : List (Option Grad)
  master_grads : List (Option Grad)
  global_step : ℕ
  skipped_steps : ℕ
  scaler : AmpScaler
  deriving Repr, DecidableEq

/-- Configuration fields of `args` consulted by the embedded code paths. -/
structure Args where
  gradient_accumulation_steps : ℕ
  compute_threshold : ℤ
  world_size : ℕ
  allreduce_post_accumulation : Bool
  use_habana : Bool
  fp16 : Bool
  debug : Bool
  master_weights : Bool
  deriving Repr, DecidableEq

/-- External collaborators of the optimizer-step protocol: the cluster
all-reduce on a flattened gradient buffer, the optimizer's parameter update
(optimizer.step() as a function of parameters and the gradients it reads),
and the effect of the cluster all-reduce on this rank's computed count. -/
structure Collab where
  allReduce : List Grad → List Grad
  optStepF : List ℚ → List (Option Grad) → List ℚ
  reduceCount : ℕ → ℕ

/-- Write a list of values back into the non-None slots of a gradient list,
in order (the in-place update of the unflattened gradient views). -/
def writeBack : List (Option Grad) → List Grad → List (Option Grad)
  | [], _ => []
  | none :: rest, vs => none :: writeBack rest vs
  | some g :: rest, [] => some g :: writeBack rest []
  | some _ :: rest, v :: vs => some v :: writeBack rest vs

/-- Predivided flattened master gradients (step 2 of take_optimizer_step):
each master gradient scaled by loss_scale / (world_size *
gradient_accumulation_steps). -/
def allreduced_views (args : Args) (loss_scale : ℚ) (st : TrainState) :
    List Grad :=
  (st.master_grads.filterMap id).map
    (scaleGrad (loss_scale /
      ((args.world_size : ℚ) * (args.gradient_accumulation_steps : ℚ))))

/-- The flattened buffer after the cluster all-reduce (step 3). -/
def flat_raw (c : Collab) (args : Args) (loss_scale : ℚ) (st : TrainState) :
    List Grad :=
  c.allReduce (allreduced_views args loss_scale st)

/-- take_optimizer_step (run_pretraining.py lines 727-808).  The branch on
`allreduce_post_accumulation and not use_habana` performs manual flattened
all-reduce, Inf/NaN detection, the loss-scale update with the overflow-buffer
swap (including the `_overfloat_buf` typo of line 763), and applies or skips
the optimizer step; the other branch optionally all-reduces flattened habana
gradients, steps the optimizer, clears gradients and increments global_step.
The hmp disable_casts context only changes how optimizer.step() is invoked,
not its effect, so both invocations are the same `optStepF`. -/
def take_optimizer_step (c : Collab) (args : Args) (overflow_buf : ℕ)
    (st : TrainState) : TrainState :=
  if args.allreduce_post_accumulation = true ∧ args.use_habana = false then
    let loss_scale : ℚ := if args.fp16 then st.scaler.loss_scale else 1
    let reduced : List Grad := flat_raw c args loss_scale st
    let unscaled : List Grad := reduced.map (scaleGrad (1 / loss_scale))
    let st1 : TrainState :=
      { st with master_grads := writeBack st.master_grads unscaled }
    let scaled_had_overflow : Bool := hasOverflow reduced
    let upd : AmpScaler × Bool :=
      if args.fp16 then
        let old_overflow_buf := st.scaler.overflow_buf
        let scaler1 := { st.scaler with overflow_buf := overflow_buf }
        let r := scaler1.update_scale scaled_had_overflow
        ({ r.1 with overfloat_buf := some old_overflow_buf }, r.2)
      else
        (st.scaler, false)
    if upd.2 = false then
      { st1 with
        scaler := upd.1,
        params := c.optStepF st1.params st1.master_grads,
        global_step := st.global_step + 1,
        grads := st1.grads.map (fun _ => none) }
    else
      { st1 with
        scaler := upd.1,
        skipped_steps := st.skipped_steps + 1,
        master_grads :=
          if args.master_weights then st1.master_grads.map (fun _ => none)
          else st1.master_grads,
        grads := st1.grads.map (fun _ => none) }
  else
    let st1 : TrainState :=
      if args.use_habana = true ∧ args.allreduce_post_accumulation = true then
        let grad_tensors := st.grads.filterMap id
        let flat_tensor := grad_tensors.map
          (scaleGrad (1 /
            ((args.world_size : ℚ) * (args.gradient_accumulation_steps : ℚ))))
        { st with grads := writeBack st.grads (c.allReduce flat_tensor) }
      else st
    { st1 with
      params := c.optStepF st1.params st1.grads,
      grads := st1.grads.map (fun _ => none),
      global_step := st.global_step + 1 }

/-- Clearing every slot of a written-back gradient list clears the original
list: writeBack preserves the list shape. -/
theorem writeBack_map_none (l : List (Option Grad)) (vs : List Grad) :
    (writeBack l vs).map (fun _ => (none : Option Grad)) =
      l.map (fun _ => (none : Option Grad)) := by
  induction l generalizing vs with
  | nil => simp [writeBack]
  | cons hd tl ih =>
    cases hd with
    | none => simp [writeBack, ih]
    | some g =>
      cases vs with
      | nil => simp [writeBack, ih]
      | cons v vtl => simp [writeBack, ih]

/-- writeBack preserves the length of the gradient list. -/
theorem writeBack_length (l : List (Option Grad)) (vs : List Grad) :
    (writeBack l vs).length = l.length := by
  induction l generalizing vs with
  | nil => simp [writeBack]
  | cons hd tl ih =>
    cases hd with
    | none => simp [writeBack, ih]
    | some g =>
      cases vs with
      | nil => simp [writeBack, ih]
      | cons v vtl => simp [writeBack, ih]

/-- Trivial external collaborators used by concrete witnesses: the identity
all-reduce (single participant) and an optimizer update that leaves the
parameters unchanged. -/
def idCollab : Collab :=
  { allReduce := id, optStepF := fun p _ => p, reduceCount := id }

/-- C1: in the mixed-precision manual-allreduce branch of
take_optimizer_step, detected overflow skips the optimizer step, increments
skipped_steps by exactly 1, clears the model and master gradients, lowers the
loss scale, and leaves global_step and the model parameters unchanged; with
no overflow the optimizer step is applied to the synchronized gradients,
gradients are cleared and global_step is incremented by exactly 1. -/
theorem c1_overflow_step_protocol (c : Collab) (args : Args)
    (overflow_buf : ℕ) (st : TrainState)
    (hall : args.allreduce_post_accumulation = true)
    (hhab : args.use_habana = false)
    (hfp : args.fp16 = true)
    (hmw : args.master_weights = true)
    (hdyn : st.scaler.dynamic = true)
    (hpos : 0 < st.scaler.loss_scale) :
    (hasOverflow (flat_raw c args st.scaler.loss_scale st) = true →
      (take_optimizer_step c args overflow_buf st).params = st.params ∧
      (take_optimizer_step c args overflow_buf st).global_step =
        st.global_step ∧
      (take_optimizer_step c args overflow_buf st).skipped_steps =
        st.skipped_steps + 1 ∧
      (take_optimizer_step c args overflow_buf st).grads =
        st.grads.map (fun _ => none) ∧
      (take_optimizer_step c args overflow_buf st).master_grads =
        st.master_grads.map (fun _ => none) ∧
      (take_optimizer_step c args overflow_buf st).scaler.loss_scale <
        st.scaler.loss_scale) ∧
    (hasOverflow (flat_raw c args st.scaler.loss_scale st) = false →
      (take_optimizer_step c args overflow_buf st).params =
        c.optStepF st.params
          (writeBack st.master_grads
            ((flat_raw c args st.scaler.loss_scale st).map
              (scaleGrad (1 / st.scaler.loss_scale)))) ∧
      (take_optimizer_step c args overflow_buf st).global_step =
        st.global_step + 1 ∧
      (take_optimizer_step c args overflow_buf st).skipped_steps =
        st.skipped_steps ∧
      (take_optimizer_step c args overflow_buf st).grads =
        st.grads.map (fun _ => none) ∧
      (take_optimizer_step c args overflow_buf st).scaler.loss_scale =
        st.scaler.loss_scale) := by
  constructor
  · intro hov
    simp only [take_optimizer_step, hall, hhab, hfp, hmw, hov, if_true,
      and_self, true_and, if_pos, AmpScaler.update_scale, hdyn]
    norm_num [writeBack_length]
    exact hpos
  · intro hov
    simp only [take_optimizer_step, hall, hhab, hfp, hov, if_true, and_self,
      true_and, AmpScaler.update_scale]
    norm_num

/-- Concrete gradient with an Inf/NaN flag set, and a finite one. -/
def nanGrad : Grad := { mag := 0, finite := false }

/-- Concrete finite gradient. -/
def oneGrad : Grad := { mag := 1, finite := true }

/-- Concrete scaler used by witnesses: dynamic, loss scale 64, buffer
reference 3. -/
def exScaler : AmpScaler :=
  { loss_scale := 64, dynamic := true, overflow_buf := 3,
    overfloat_buf := none }

/-- Concrete training state whose master gradients contain a NaN. -/
def exNanState : TrainState :=
  { params := [5], grads := [some oneGrad], master_grads := [some nanGrad],
    global_step := 10, skipped_steps := 0, scaler := exScaler }

/-- Concrete args selecting the mixed-precision manual-allreduce branch. -/
def exFp16Args : Args :=
  { gradient_accumulation_steps := 1, compute_threshold := 0, world_size := 1,
    allreduce_post_accumulation := true, use_habana := false, fp16 := true,
    debug := false, master_weights := true }

/-- Witness for C1: a synthetic gradient buffer containing a NaN makes the
concrete call skip the step, bump skipped_steps, clear gradients and keep the
parameters, while global_step stays 10. -/
theorem c1_overflow_step_protocol_witness :
    hasOverflow (flat_raw idCollab exFp16Args
      exNanState.scaler.loss_scale exNanState) = true ∧
    (take_optimizer_step idCollab exFp16Args 7 exNanState).params = [5] ∧
    (take_optimizer_step idCollab exFp16Args 7 exNanState).global_step = 10 ∧
    (take_optimizer_step idCollab exFp16Args 7 exNanState).skipped_steps = 1 := by
  have hov : hasOverflow (flat_raw idCollab exFp16Args
      exNanState.scaler.loss_scale exNanState) = true := by decide
  have h := (c1_overflow_step_protocol idCollab exFp16Args 7 exNanState
    rfl rfl rfl rfl rfl (by norm_num [exNanState, exScaler])).1 hov
  exact ⟨hov, h.1, h.2.1, h.2.2.1⟩

/-- C6 (code bug): line 763 of run_pretraining.py writes the saved buffer
reference into a misspelled fresh attribute `_overfloat_buf`, so after the
fp16 loss-scale update the scaler's `_overflow_buf` still references the
buffer passed into take_optimizer_step (here 7) instead of being restored to
its pre-call value (here 3); the saved value 3 ends up in `_overfloat_buf`. -/
theorem c6_overflow_buf_not_restored :
    exNanState.scaler.overflow_buf = 3 ∧
    (take_optimizer_step idCollab exFp16Args 7 exNanState).scaler.overflow_buf
      = 7 ∧
    (take_optimizer_step idCollab exFp16Args 7 exNanState).scaler.overfloat_buf
      = some 3 := by
  refine ⟨rfl, ?_, ?_⟩ <;> decide

/-- Configuration fields consulted by the validation part of setup_training
(run_pretraining.py lines 521-542).  `output_dir_listing = none` stands for a
non-existing output directory, `some l` for an existing directory whose
entries are `l`. -/
structure SetupArgs where
  gradient_accumulation_steps : ℤ
  train_batch_size : ℤ
  do_train : Bool
  resume_from_checkpoint : Bool
  output_dir_listing : Option (List String)
  deriving Repr, DecidableEq

/-- Python str.startswith('ckpt') on a filename, as a character-list test
(String.startsWith is not kernel-reducible). -/
def startswith_ckpt (i : String) : Bool :=
  "ckpt".data.isPrefixOf i.data

/-- Validation sequence of setup_training, in source order: accumulation
factor at least 1, train batch size divisible by it, do_train mandatory, and
on a fresh (non-resume) run the output directory must not already hold a
`ckpt*` entry.  The batch-size division and packed-mode rounding between the
checks raise nothing and are omitted. -/
def setup_training_validate (a : SetupArgs) : Except String Unit :=
  if a.gradient_accumulation_steps < 1 then
    Except.error "Invalid gradient_accumulation_steps parameter: should be >= 1"
  else if a.train_batch_size % a.gradient_accumulation_steps ≠ 0 then
    Except.error "Invalid gradient_accumulation_steps parameter: batch size should be divisible"
  else if a.do_train = false then
    Except.error "do_train must be True."
  else if a.resume_from_checkpoint = false ∧
      (match a.output_dir_listing with
       | some l => l.any (fun i => startswith_ckpt i)
       | none => false) = true then
    Except.error "Output directory already exists and is not empty."
  else
    Except.ok ()

/-- Whether an Except result is an error. -/
def exceptIsError (e : Except String Unit) : Bool :=
  match e with
  | Except.error _ => true
  | Except.ok _ => false

/-- Fresh-run configuration whose output directory is non-empty but holds no
checkpoint entry: setup succeeds, contradicting C7 as stated. -/
def exC7Args : SetupArgs :=
  { gradient_accumulation_steps := 1, train_batch_size := 8, do_train := true,
    resume_from_checkpoint := false,
    output_dir_listing := some ["notes.txt"] }

/-- Counterexample to C7: a fresh (non-resume) run whose output directory is
non-empty ("notes.txt") does not fail — the source only rejects directories
holding an entry that starts with "ckpt". -/
theorem c7_counterexample_nonempty_dir_ok :
    exC7Args.resume_from_checkpoint = false ∧
    exC7Args.output_dir_listing = some ["notes.txt"] ∧
    setup_training_validate exC7Args = Except.ok () := by
  refine ⟨rfl, rfl, ?_⟩
  rfl

/-- C7 (amended): setup fails on an invalid accumulation factor, on a train
batch size not divisible by it, and on a fresh run whose output directory
holds an entry starting with "ckpt"; with a valid configuration (including
do_train) no error is raised. -/
theorem c7_setup_validation (a : SetupArgs) :
    (a.gradient_accumulation_steps < 1 →
      exceptIsError (setup_training_validate a) = true) ∧
    (a.train_batch_size % a.gradient_accumulation_steps ≠ 0 →
      exceptIsError (setup_training_validate a) = true) ∧
    (a.resume_from_checkpoint = false →
      (∃ l, a.output_dir_listing = some l ∧
        l.any (fun i => startswith_ckpt i) = true) →
      exceptIsError (setup_training_validate a) = true) ∧
    (1 ≤ a.gradient_accumulation_steps →
      a.train_batch_size % a.gradient_accumulation_steps = 0 →
      a.do_train = true →
      (a.resume_from_checkpoint = true ∨
        (match a.output_dir_listing with
         | some l => l.any (fun i => startswith_ckpt i)
         | none => false) = false) →
      setup_training_validate a = Except.ok ()) := by
  refine ⟨?_, ?_, ?_, ?_⟩
  · intro h
    simp [setup_training_validate, h, exceptIsError]
  · intro h
    unfold setup_training_validate exceptIsError
    by_cases h1 : a.gradient_accumulation_steps < 1
    · simp [h1]
    · simp [h1, h]
  · rintro hres ⟨l, hl, hany⟩
    unfold setup_training_validate exceptIsError
    by_cases h1 : a.gradient_accumulation_steps < 1
    · simp [h1]
    · by_cases h2 : a.train_batch_size % a.gradient_accumulation_steps = 0
      · by_cases h3 : a.do_train = false
        · simp [h1, h2, h3]
        · simp [h1, h2, h3, hres, hl, hany]
      · simp [h1, h2]
  · intro h1 h2 h3 h4
    have h1' : ¬ a.gradient_accumulation_steps < 1 := not_lt.mpr h1
    unfold setup_training_validate
    rcases h4 with h4 | h4
    · simp [h1', h2, h3, h4]
    · simp [h1', h2, h3, h4]

/-- Witness for C7 (amended) at concrete configurations: an accumulation
factor of 0 fails, and a fresh-run directory holding "ckpt_5.pt" fails. -/
theorem c7_setup_validation_witness :
    exceptIsError (setup_training_validate
      { exC7Args with gradient_accumulation_steps := 0 }) = true ∧
    exceptIsError (setup_training_validate
      { exC7Args with output_dir_listing := some ["ckpt_5.pt"] }) = true ∧
    setup_training_validate exC7Args = Except.ok () := by
  refine ⟨?_, ?_, ?_⟩
  · exact (c7_setup_validation _).1 (by decide)
  · exact (c7_setup_validation _).2.2.1 (by decide)
      ⟨["ckpt_5.pt"], rfl, by decide⟩
  · exact (c7_setup_validation exC7Args).2.2.2 (by decide) (by decide)
      (by decide) (Or.inr (by decide))

/-- Checkpoint write bookkeeping (run_pretraining.py lines 1224-1228): the
state is the `most_recent_ckpts_paths` list together with the set of
checkpoint files on disk.  A write saves the file, appends its path, and,
when more than 3 paths are tracked, pops the oldest and removes it from
disk. -/
def saveCkpt (st : List String × Finset String) (p : String) :
    List String × Finset String :=
  let disk1 := insert p st.2
  let l1 := st.1 ++ [p]
  if l1.length > 3 then
    match l1 with
    | [] => (l1, disk1)
    | r :: rest => (rest, disk1.erase r)
  else (l1, disk1)

/-- Successive checkpoint writes starting from an empty directory and an
empty retention list. -/
def runCkpts (ps : List String) : List String × Finset String :=
  ps.foldl saveCkpt ([], ∅)

/-- Retention characterization: after writing a duplicate-free sequence of
paths, the retention list is the at-most-3 most recent paths and the disk
holds exactly those files. -/
theorem runCkpts_eq : ∀ ps : List String, ps.Nodup →
    runCkpts ps =
      (ps.drop (ps.length - 3), (ps.drop (ps.length - 3)).toFinset) := by
  intro ps
  induction ps using List.reverseRecOn with
  | nil => intro _; simp [runCkpts]
  | append_singleton l a ih =>
    intro hnd
    obtain ⟨hl, -, hdisj⟩ := List.nodup_append.mp hnd
    have hal : a ∉ l := fun hmem => hdisj hmem (List.mem_singleton_self a)
    have hstep : runCkpts (l ++ [a]) = saveCkpt (runCkpts l) a := by
      simp [runCkpts, List.foldl_append]
    rw [hstep, ih hl]
    by_cases hlen : l.length < 3
    · have h0 : l.length - 3 = 0 := by omega
      have h0' : (l ++ [a]).length - 3 = 0 := by
        simp only [List.length_append, List.length_cons, List.length_nil]
        omega
      have hnotgt : ¬ (l ++ [a]).length > 3 := by
        simp only [List.length_append, List.length_cons, List.length_nil]
        omega
      have hsave : saveCkpt (l.drop (l.length - 3),
          (l.drop (l.length - 3)).toFinset) a =
          (l ++ [a], insert a l.toFinset) := by
        simp only [saveCkpt, h0, List.drop_zero]
        rw [if_neg hnotgt]
      rw [hsave, h0', List.drop_zero]
      refine Prod.ext rfl ?_
      ext x
      simp [or_comm]
    · have hge : 3 ≤ l.length := by omega
      set d : List String := l.drop (l.length - 3) with hd
      have hdlen : d.length = 3 := by
        simp [hd, List.length_drop]
        omega
      have hdsub : d.Sublist l := List.drop_sublist _ _
      have hdnodup : d.Nodup := hl.sublist hdsub
      cases hdd : d with
      | nil => rw [hdd] at hdlen; simp at hdlen
      | cons r d2 =>
        have hrl : r ∈ l := hdsub.mem (by rw [hdd]; exact List.mem_cons_self r d2)
        have hra : r ≠ a := fun h => hal (h ▸ hrl)
        have hrd2 : r ∉ d2 := by
          have := hdnodup
          rw [hdd] at this
          exact (List.nodup_cons.mp this).1
        have hd2len : d2.length = 2 := by
          rw [hdd] at hdlen
          simpa using hdlen
        have hd2 : d2 = l.drop (l.length - 2) := by
          have ht : d.tail = l.drop (l.length - 3 + 1) := by
            rw [hd, List.tail_drop]
          have h32 : l.length - 3 + 1 = l.length - 2 := by omega
          rw [hdd] at ht
          simpa [h32] using ht
        have htarget : (l ++ [a]).drop ((l ++ [a]).length - 3) = d2 ++ [a] := by
          have h12 : (l ++ [a]).length - 3 = l.length - 2 := by
            simp only [List.length_append, List.length_cons, List.length_nil]
            omega
          rw [h12, List.drop_append_of_le_length (by omega), ← hd2]
        have hgt : ((r :: d2) ++ [a]).length > 3 := by
          simp [hd2len]
        have hsave : saveCkpt (d, d.toFinset) a =
            (d2 ++ [a], (insert a d.toFinset).erase r) := by
          simp only [saveCkpt, hdd, List.cons_append]
          rw [if_pos (by simpa using hgt)]
        rw [hdd] at hsave
        rw [hsave, htarget]
        refine Prod.ext rfl ?_
        show (insert a ((r :: d2).toFinset)).erase r = (d2 ++ [a]).toFinset
        ext x
        simp only [Finset.mem_erase, Finset.mem_insert, List.mem_toFinset,
          List.mem_cons, List.mem_append, List.mem_singleton,
          List.mem_nil_iff, or_false]
        constructor
        · rintro ⟨hxr, (h | h | h)⟩
          · exact Or.inr h
          · exact absurd h hxr
          · exact Or.inl h
        · rintro (h | h)
          · exact ⟨fun he => hrd2 (he ▸ h), Or.inr (Or.inr h)⟩
          · exact ⟨h ▸ hra.symm, Or.inl h⟩

/-- C8: after each checkpoint write the set of files on disk has at most 3
elements, and after 5 or more successive writes the disk holds exactly the 3
most recently written checkpoint files. -/
theorem c8_checkpoint_retention (ps : List String) (hnd : ps.Nodup) :
    (∀ n, ((runCkpts (ps.take n)).2).card ≤ 3) ∧
    (5 ≤ ps.length →
      (runCkpts ps).2 = (ps.drop (ps.length - 3)).toFinset ∧
      ((runCkpts ps).2).card = 3) := by
  constructor
  · intro n
    have hnodup : (ps.take n).Nodup := hnd.sublist (List.take_sublist n ps)
    rw [runCkpts_eq (ps.take n) hnodup]
    calc ((ps.take n).drop ((ps.take n).length - 3)).toFinset.card
        ≤ ((ps.take n).drop ((ps.take n).length - 3)).length :=
          List.toFinset_card_le _
      _ ≤ 3 := by
          rw [List.length_drop]
          omega
  · intro hlen
    have hdnodup : (ps.drop (ps.length - 3)).Nodup :=
      hnd.sublist (List.drop_sublist _ _)
    refine ⟨by rw [runCkpts_eq ps hnd], ?_⟩
    rw [runCkpts_eq ps hnd]
    rw [List.toFinset_card_of_nodup hdnodup, List.length_drop]
    omega

/-- Witness for C8 at 5 concrete distinct checkpoint paths. -/
theorem c8_checkpoint_retention_witness :
    (runCkpts ["ckpt_1.pt", "ckpt_2.pt", "ckpt_3.pt", "ckpt_4.pt",
      "ckpt_5.pt"]).2 =
      (["ckpt_3.pt", "ckpt_4.pt", "ckpt_5.pt"] : List String).toFinset ∧
    ((runCkpts ["ckpt_1.pt", "ckpt_2.pt", "ckpt_3.pt", "ckpt_4.pt",
      "ckpt_5.pt"]).2).card = 3 := by
  have h := (c8_checkpoint_retention
    ["ckpt_1.pt", "ckpt_2.pt", "ckpt_3.pt", "ckpt_4.pt", "ckpt_5.pt"]
    (by decide)).2 (by decide)
  exact ⟨h.1, h.2⟩

/-- Environment of one micro-step (the external collaborators' contribution):
the micro-batch size (`len(input_ids)`), the elapsed-time observations the
instrumentation hooks see during the forward pass (empty when no hook
fires), the wall-clock time at the step boundary, and the gradient contents
the external backward pass leaves in the master and model gradients when the
micro-step completes. -/
structure MicroEnv where
  batch_size : ℕ
  hook_times : List ℤ
  now : ℤ
  backward_master : List (Option Grad)
  backward_model : List (Option Grad)
  deriving Repr, DecidableEq

/-- State threaded through the training loop of main(): the micro-step
counter `training_steps`, the module-global `global_drop_timer`, the
per-process ComputeState, and the optimizer-side training state. -/
structure LoopState where
  training_steps : ℕ
  timer : DeviceTimer
  cs : ComputeState
  ts : TrainState
  deriving Repr, DecidableEq

/-- Observable events of one loop-body execution: whether ComputeTimeout was
raised (and caught), whether the micro-step ended the macro-step, whether the
cluster reduce of the computed count and take_optimizer_step ran, whether the
completed micro-step was recorded into computed_batch_size, and the
cluster-reduced computed count observed at the boundary. -/
structure StepEvents where
  raised : Bool
  is_optimizer_step : Bool
  did_all_reduce : Bool
  did_take_optimizer_step : Bool
  recorded_compute : Bool
  reduced_count : ℕ
  deriving Repr, DecidableEq

/-- The instrumentation hooks fired inside the forward pass (set_hooks):
each runs global_drop_timer.check_drop_compute_throw; the first raise aborts
the rest of the forward pass. -/
def runHooks : DeviceTimer → List ℤ → DeviceTimer × Bool
  | t, [] => (t, false)
  | t, nt :: rest =>
    let r := t.check_drop_compute_throw nt
    if r.2 = true then (r.1, true) else runHooks r.1 rest

/-- One iteration of the delayed-update loop of main() (run_pretraining.py
lines 1007-1119): bump training_steps, compute local_step and the scheduled
boundary test, run the forward pass with its hooks (a raise abandons the
micro-step: no gradient contribution and no computed-count record; the
exception is caught here and never propagates), force the boundary on a
raise, and at a boundary cluster-reduce the computed count, call
take_optimizer_step, then reset and restart the drop timer and reset the
ComputeState, enabling drop compute iff global_step > 5 and the (pre-reset)
ComputeState threshold is positive. -/
def loopBody (c : Collab) (args : Args) (overflow_buf : ℕ) (env : MicroEnv)
    (s : LoopState) : LoopState × StepEvents :=
  let training_steps := s.training_steps + 1
  let local_step := training_steps % args.gradient_accumulation_steps
  let hooks := runHooks s.timer env.hook_times
  let timer1 := hooks.1
  let raised := hooks.2
  let ts1 : TrainState :=
    if raised then s.ts
    else { s.ts with master_grads := env.backward_master,
                     grads := env.backward_model }
  let cs1 : ComputeState :=
    if raised then s.cs
    else { s.cs with computed_batch_size :=
            s.cs.computed_batch_size + s.cs.mini_batch_size }
  let is_optimizer_step : Bool := decide (local_step = 0) || raised
  if is_optimizer_step = true then
    let reduced := c.reduceCount cs1.computed_batch_size
    let cs2 := { cs1 with computed_batch_size := reduced }
    let ts2 := take_optimizer_step c args overflow_buf ts1
    let enable : Bool :=
      decide (ts2.global_step > 5) && decide (cs1.threshold > 0)
    let timer2 :=
      { (timer1.reset.start env.now) with
        debug := args.debug,
        drop_threshold := args.compute_threshold,
        enable_drop_compute := enable }
    let cs3 := cs2.reset_state args.compute_threshold enable env.now
      env.batch_size
    ({ training_steps := training_steps, timer := timer2, cs := cs3,
       ts := ts2 },
     { raised := raised, is_optimizer_step := true, did_all_reduce := true,
       did_take_optimizer_step := true, recorded_compute := !raised,
       reduced_count := reduced })
  else
    ({ training_steps := training_steps, timer := timer1, cs := cs1,
       ts := ts1 },
     { raised := raised, is_optimizer_step := false, did_all_reduce := false,
       did_take_optimizer_step := false, recorded_compute := !raised,
       reduced_count := 0 })

/-- Iterating the loop body over a list of micro-step environments,
collecting the per-step events. -/
def runLoop (c : Collab) (args : Args) (overflow_buf : ℕ) :
    LoopState → List MicroEnv → LoopState × List StepEvents
  | s, [] => (s, [])
  | s, e :: es =>
    let r := loopBody c args overflow_buf e s
    let rest := runLoop c args overflow_buf r.1 es
    (rest.1, r.2 :: rest.2)

/-- Training state at process start with a given (possibly resumed)
global_step and no gradients. -/
def freshTrainState (g0 : ℕ) : TrainState :=
  { params := [], grads := [], master_grads := [], global_step := g0,
    skipped_steps := 0, scaler := exScaler }

/-- Loop state at process start: training_steps 0, the module-global
`global_drop_timer = DeviceTimer(use_hpu=True)`, and a fresh
`ComputeState(device)`. -/
def initLoopState (g0 : ℕ) : LoopState :=
  { training_steps := 0, timer := DeviceTimer.init true false,
    cs := ComputeState.init, ts := freshTrainState g0 }

/-- The raised flag reported by a loop-body execution is exactly the raise
produced by the forward-pass hooks. -/
theorem loopBody_events_raised (c : Collab) (args : Args) (overflow_buf : ℕ)
    (env : MicroEnv) (s : LoopState) :
    (loopBody c args overflow_buf env s).2.raised =
      (runHooks s.timer env.hook_times).2 := by
  unfold loopBody
  dsimp only
  split <;> rfl

/-- A raised ComputeTimeout makes the loop body take the boundary branch:
events and resulting training state of the dropped micro-step. -/
theorem loopBody_raised (c : Collab) (args : Args) (overflow_buf : ℕ)
    (env : MicroEnv) (s : LoopState)
    (hr : (runHooks s.timer env.hook_times).2 = true) :
    (loopBody c args overflow_buf env s).2 =
      { raised := true, is_optimizer_step := true, did_all_reduce := true,
        did_take_optimizer_step := true, recorded_compute := false,
        reduced_count := c.reduceCount s.cs.computed_batch_size } ∧
    (loopBody c args overflow_buf env s).1.ts =
      take_optimizer_step c args overflow_buf s.ts ∧
    (loopBody c args overflow_buf env s).1.training_steps =
      s.training_steps + 1 := by
  unfold loopBody
  simp [hr]

/-- C2: whenever the ComputeTimeout is raised during a micro-step, the loop
body catches it (it is total, so the exception never escapes), abandons the
micro-step (no computed-count record), treats it as the last micro-step of
the macro-step regardless of the accumulation count, executes the cluster
reduce of the computed count and invokes take_optimizer_step on the
pre-step training state. -/
theorem c2_timeout_forces_synchronization (c : Collab) (args : Args)
    (overflow_buf : ℕ) (env : MicroEnv) (s : LoopState)
    (hr : (loopBody c args overflow_buf env s).2.raised = true) :
    (loopBody c args overflow_buf env s).2.is_optimizer_step = true ∧
    (loopBody c args overflow_buf env s).2.did_all_reduce = true ∧
    (loopBody c args overflow_buf env s).2.did_take_optimizer_step = true ∧
    (loopBody c args overflow_buf env s).2.recorded_compute = false ∧
    (loopBody c args overflow_buf env s).1.ts =
      take_optimizer_step c args overflow_buf s.ts ∧
    (loopBody c args overflow_buf env s).1.training_steps =
      s.training_steps + 1 := by
  have hb : (runHooks s.timer env.hook_times).2 = true := by
    rw [← loopBody_events_raised c args overflow_buf env s]
    exact hr
  obtain ⟨he, hts, htr⟩ := loopBody_raised c args overflow_buf env s hb
  refine ⟨?_, ?_, ?_, ?_, hts, htr⟩ <;> rw [he]

/-- Concrete args for loop-level witnesses: accumulation factor 4, positive
compute threshold, habana path. -/
def exLoopArgs : Args :=
  { gradient_accumulation_steps := 4, compute_threshold := 1, world_size := 1,
    allreduce_post_accumulation := false, use_habana := true, fp16 := false,
    debug := false, master_weights := false }

/-- Concrete mid-window state whose drop timer is armed. -/
def exDropState : LoopState :=
  { training_steps := 1, timer := exTimer,
    cs := { computed_batch_size := 4, start_compute := 0, threshold := 1,
            enable_drop := true, mini_batch_size := 4 },
    ts := freshTrainState 7 }

/-- Micro-step environment whose hook observes time 2 (past the threshold 1
of exTimer), raising the timeout. -/
def exDropEnv : MicroEnv :=
  { batch_size := 4, hook_times := [2], now := 3, backward_master := [],
    backward_model := [] }

/-- Witness for C2: micro-step 2 of a 4-step accumulation window is dropped
and still ends the macro-step with the synchronization performed. -/
theorem c2_timeout_forces_synchronization_witness :
    (2 : ℕ) % exLoopArgs.gradient_accumulation_steps ≠ 0 ∧
    (loopBody idCollab exLoopArgs 0 exDropEnv exDropState).2.is_optimizer_step
      = true ∧
    (loopBody idCollab exLoopArgs 0 exDropEnv
      exDropState).2.did_take_optimizer_step = true := by
  have h := c2_timeout_forces_synchronization idCollab exLoopArgs 0 exDropEnv
    exDropState (by decide)
  exact ⟨by decide, h.1, h.2.2.1⟩

/-- Quiet micro-step environment: no hook fires, micro-batch size 4. -/
def exQuietEnv : MicroEnv :=
  { batch_size := 4, hook_times := [], now := 0, backward_master := [],
    backward_model := [] }

/-- Counterexample to C5: a resumed run (global_step 6 at process start) with
a positive configured compute threshold reaches its first macro-step boundary
with global_step 7 > 5, yet drop compute is left disabled, because the
enable expression reads the ComputeState threshold, which is still its
process-start value 0 at the first boundary. -/
theorem c5_counterexample_first_boundary :
    exLoopArgs.compute_threshold > 0 ∧
    (loopBody idCollab
      { exLoopArgs with gradient_accumulation_steps := 1 } 0 exQuietEnv
      (initLoopState 6)).2.is_optimizer_step = true ∧
    (loopBody idCollab
      { exLoopArgs with gradient_accumulation_steps := 1 } 0 exQuietEnv
      (initLoopState 6)).1.ts.global_step = 7 ∧
    (loopBody idCollab
      { exLoopArgs with gradient_accumulation_steps := 1 } 0 exQuietEnv
      (initLoopState 6)).1.timer.enable_drop_compute = false := by
  refine ⟨by norm_num [exLoopArgs], ?_, ?_, ?_⟩ <;> decide

/-- C5 (amended): at every macro-step boundary, drop compute is enabled for
the following window iff the post-boundary global_step exceeds 5 and the
ComputeState threshold recorded before the boundary is positive; the boundary
also stores the configured compute_threshold into the ComputeState, so the
recorded threshold is 0 only before the first boundary of the process. -/
theorem c5_amended_enable_drop_rule (c : Collab) (args : Args)
    (overflow_buf : ℕ) (env : MicroEnv) (s : LoopState)
    (hb : (loopBody c args overflow_buf env s).2.is_optimizer_step = true) :
    (loopBody c args overflow_buf env s).1.timer.enable_drop_compute =
      (decide ((loopBody c args overflow_buf env s).1.ts.global_step > 5) &&
       decide (s.cs.threshold > 0)) ∧
    (loopBody c args overflow_buf env s).1.cs.threshold =
      args.compute_threshold ∧
    (loopBody c args overflow_buf env s).1.cs.enable_drop =
      (loopBody c args overflow_buf env s).1.timer.enable_drop_compute := by
  revert hb
  unfold loopBody
  dsimp only
  split
  · intro _
    cases hraised : (runHooks s.timer env.hook_times).2 <;>
      simp [hraised, ComputeState.reset_state, DeviceTimer.reset,
        DeviceTimer.start]
  · intro hb
    simp at hb

/-- Witness for C5 (amended): at the second boundary of the resumed run of
the counterexample, the recorded threshold is positive and global_step is
8 > 5, so drop compute comes out enabled. -/
theorem c5_amended_enable_drop_rule_witness :
    (loopBody idCollab { exLoopArgs with gradient_accumulation_steps := 1 } 0
      exQuietEnv
      (loopBody idCollab { exLoopArgs with gradient_accumulation_steps := 1 }
        0 exQuietEnv (initLoopState 6)).1).1.timer.enable_drop_compute
      = true := by
  have h := c5_amended_enable_drop_rule idCollab
    { exLoopArgs with gradient_accumulation_steps := 1 } 0 exQuietEnv
    (loopBody idCollab { exLoopArgs with gradient_accumulation_steps := 1 } 0
      exQuietEnv (initLoopState 6)).1 (by decide)
  rw [h.1]
  decide

/-- With drop compute disabled, the forward-pass hooks never raise and leave
the timer unchanged. -/
theorem runHooks_not_enabled (t : DeviceTimer) (times : List ℤ)
    (h : t.enable_drop_compute = false) : runHooks t times = (t, false) := by
  induction times with
  | nil => rfl
  | cons nt rest ih =>
    have hc : t.check_drop_compute_throw nt = (t, false) := by
      unfold DeviceTimer.check_drop_compute_throw
      split
      · rfl
      · rw [if_neg]
        intro hcon
        rw [h] at hcon
        exact Bool.false_ne_true hcon.1
    unfold runHooks
    rw [hc]
    simpa using ih

/-- A loop-body step whose timer has drop compute disabled never raises, and
when it is not a boundary it leaves the timer untouched. -/
theorem loopBody_not_enabled (c : Collab) (args : Args) (overflow_buf : ℕ)
    (env : MicroEnv) (s : LoopState)
    (h : s.timer.enable_drop_compute = false) :
    (loopBody c args overflow_buf env s).2.raised = false ∧
    ((loopBody c args overflow_buf env s).2.is_optimizer_step = false →
      (loopBody c args overflow_buf env s).1.timer = s.timer) := by
  have hh := runHooks_not_enabled s.timer env.hook_times h
  unfold loopBody
  dsimp only
  rw [hh]
  simp only [Bool.or_false]
  split
  · simp
  · simp

/-- C9: starting from any state whose drop timer has enable_drop_compute
still false (as the module-global timer has at process start, the flag being
set only inside the optimizer-step branch), every micro-step at an index
preceded by no macro-step boundary — in particular every micro-step up to
and including the earliest possible boundary, and always the very first
micro-step of the run — executes without the ComputeTimeout being raised.
This is false for an armed timer: the prefix condition is vacuous at index
0, where an armed timer does raise. -/
theorem c9_no_drop_before_first_boundary (c : Collab) (args : Args)
    (overflow_buf : ℕ) :
    ∀ (envs : List MicroEnv) (s : LoopState),
      s.timer.enable_drop_compute = false →
      ∀ (i : ℕ) (hi : i < ((runLoop c args overflow_buf s envs).2).length),
        (∀ (j : ℕ)
          (hj : j < ((runLoop c args overflow_buf s envs).2).length),
          j < i →
          (((runLoop c args overflow_buf s envs).2).get
            ⟨j, hj⟩).is_optimizer_step = false) →
        (((runLoop c args overflow_buf s envs).2).get ⟨i, hi⟩).raised
          = false := by
  intro envs
  induction envs with
  | nil =>
    intro s h i hi hprev
    simp [runLoop] at hi
  | cons e es ih =>
    intro s h i hi hprev
    have hstep := loopBody_not_enabled c args overflow_buf e s h
    cases i with
    | zero =>
      exact hstep.1
    | succ j =>
      have hi' : j < ((runLoop c args overflow_buf
          (loopBody c args overflow_buf e s).1 es).2).length :=
        Nat.lt_of_succ_lt_succ hi
      have h0 : (loopBody c args overflow_buf e s).2.is_optimizer_step
          = false :=
        hprev 0 (Nat.lt_of_le_of_lt (Nat.zero_le _) hi) (Nat.succ_pos j)
      have h1 : (loopBody c args overflow_buf
          e s).1.timer.enable_drop_compute = false := by
        rw [hstep.2 h0]
        exact h
      exact ih (loopBody c args overflow_buf e s).1 h1 j hi'
        (fun m hm hmj =>
          hprev (m + 1) (Nat.succ_lt_succ hm) (Nat.succ_lt_succ hmj))

/-- Witness for C9: a fresh run whose first two micro-steps both feed the
hooks an observation past the configured threshold still raises nothing at
micro-step 2, micro-step 1 having been no boundary — and so neither could
have been dropped. -/
theorem c9_no_drop_before_first_boundary_witness :
    (((runLoop idCollab exLoopArgs 0 (initLoopState 0)
      [exDropEnv, exDropEnv]).2).get ⟨1, by decide⟩).raised = false :=
  c9_no_drop_before_first_boundary idCollab exLoopArgs 0
    [exDropEnv, exDropEnv] (initLoopState 0) (by decide) 1 (by decide)
    (fun j hj hlt => by
      have hj0 : j = 0 := by omega
      subst hj0
      exact (by decide :
        (((runLoop idCollab exLoopArgs 0 (initLoopState 0)
          [exDropEnv, exDropEnv]).2).get
            ⟨0, by decide⟩).is_optimizer_step = false))

/-- A quiet micro-step (no hook observation) never raises; the boundary test
is then the scheduled one and training_steps is bumped. -/
theorem loopBody_quiet (c : Collab) (args : Args) (overflow_buf : ℕ)
    (env : MicroEnv) (s : LoopState) (hq : env.hook_times = []) :
    (loopBody c args overflow_buf env s).2.is_optimizer_step =
      decide ((s.training_steps + 1) % args.gradient_accumulation_steps
        = 0) ∧
    (loopBody c args overflow_buf env s).1.training_steps =
      s.training_steps + 1 := by
  have hh : runHooks s.timer env.hook_times = (s.timer, false) := by
    rw [hq]
    rfl
  unfold loopBody
  dsimp only
  rw [hh]
  simp only [Bool.or_false]
  split
  · next hcond => exact ⟨hcond.symm, rfl⟩
  · next hcond =>
    refine ⟨?_, rfl⟩
    simpa using hcond

/-- Over quiet micro-steps, the per-step boundary flags are exactly the
schedule training_steps % gradient_accumulation_steps == 0. -/
theorem runLoop_quiet_flags (c : Collab) (args : Args) (overflow_buf : ℕ) :
    ∀ (envs : List MicroEnv) (s : LoopState),
      (∀ e ∈ envs, e.hook_times = []) →
      ((runLoop c args overflow_buf s envs).2).map
          (fun ev => ev.is_optimizer_step) =
        (List.range envs.length).map
          (fun j => decide ((s.training_steps + j + 1) %
            args.gradient_accumulation_steps = 0)) := by
  intro envs
  induction envs with
  | nil =>
    intro s _
    simp [runLoop]
  | cons e es ih =>
    intro s hq
    have he : e.hook_times = [] := hq e (List.mem_cons_self e es)
    have hstep := loopBody_quiet c args overflow_buf e s he
    have hrest := ih (loopBody c args overflow_buf e s).1
      (fun x hx => hq x (List.mem_cons_of_mem e hx))
    show (loopBody c args overflow_buf e s).2.is_optimizer_step ::
      ((runLoop c args overflow_buf (loopBody c args overflow_buf e s).1
        es).2).map (fun ev => ev.is_optimizer_step) = _
    rw [hstep.1, hrest, hstep.2, List.length_cons, List.range_succ_eq_map,
      List.map_cons, List.map_map]
    refine congrArg₂ _ (by rw [Nat.add_zero]) ?_
    refine List.map_congr_left ?_
    intro j _
    show decide ((s.training_steps + 1 + j + 1) %
        args.gradient_accumulation_steps = 0) = _
    have harith : s.training_steps + 1 + j + 1 =
        s.training_steps + (j + 1) + 1 := by omega
    rw [harith]
    rfl

/-- Arithmetic core of C10: starting k steps into the accumulation cycle
(k not 0, k + n = gas), the next n scheduled boundary flags are n-1 falses
followed by one true. -/
theorem range_map_boundary : ∀ (n k gas : ℕ), k ≠ 0 → 0 < n → k + n = gas →
    (List.range n).map (fun j => decide ((k + j + 1) % gas = 0)) =
      List.replicate (n - 1) false ++ [true] := by
  intro n
  induction n with
  | zero =>
    intro k gas _ hpos _
    omega
  | succ m ih =>
    intro k gas hk _ hkn
    cases m with
    | zero =>
      have hfin : k + 0 + 1 = gas := by omega
      have hr1 : List.range 1 = [0] := rfl
      rw [hr1, List.map_cons, List.map_nil, hfin, Nat.mod_self]
      simp
    | succ m2 =>
      rw [List.range_succ_eq_map, List.map_cons, List.map_map]
      have hlt : k + 0 + 1 < gas := by omega
      have hhead : decide ((k + 0 + 1) % gas = 0) = false := by
        rw [Nat.mod_eq_of_lt hlt]
        simp
      have htail : (List.range (m2 + 1)).map
          ((fun j => decide ((k + j + 1) % gas = 0)) ∘ Nat.succ) =
          List.replicate m2 false ++ [true] := by
        have hcongr : (List.range (m2 + 1)).map
            ((fun j => decide ((k + j + 1) % gas = 0)) ∘ Nat.succ) =
            (List.range (m2 + 1)).map
              (fun j => decide ((k + 1 + j + 1) % gas = 0)) := by
          refine List.map_congr_left ?_
          intro j _
          show decide ((k + (j + 1) + 1) % gas = 0) = _
          have : k + (j + 1) + 1 = k + 1 + j + 1 := by omega
          rw [this]
        rw [hcongr]
        have := ih (k + 1) gas (by omega) (by omega) (by omega)
        simpa using this
      rw [hhead, htail]
      have hrep : List.replicate (m2 + 1 + 1 - 1) false =
          false :: List.replicate m2 false := by
        have : m2 + 1 + 1 - 1 = m2 + 1 := by omega
        rw [this, List.replicate_succ]
      rw [hrep, List.cons_append]

/-- C10: a ComputeTimeout drop at local_step k (k not 0) forces the boundary
without realigning the accumulation cycle: with no further drop, the window
that follows holds exactly gas - k micro-steps — strictly fewer than the
configured accumulation factor — before its boundary. -/
theorem c10_drop_shortens_next_window (c : Collab) (args : Args)
    (overflow_buf : ℕ) (s : LoopState) (env : MicroEnv)
    (envs : List MicroEnv)
    (hgaspos : 0 < args.gradient_accumulation_steps)
    (hr : (loopBody c args overflow_buf env s).2.raised = true)
    (hk : (s.training_steps + 1) % args.gradient_accumulation_steps ≠ 0)
    (hq : ∀ e ∈ envs, e.hook_times = [])
    (hlen : envs.length = args.gradient_accumulation_steps -
      (s.training_steps + 1) % args.gradient_accumulation_steps) :
    (loopBody c args overflow_buf env s).2.is_optimizer_step = true ∧
    ((runLoop c args overflow_buf (loopBody c args overflow_buf env s).1
        envs).2).map (fun ev => ev.is_optimizer_step) =
      List.replicate (envs.length - 1) false ++ [true] ∧
    envs.length < args.gradient_accumulation_steps := by
  have hb : (runHooks s.timer env.hook_times).2 = true := by
    rw [← loopBody_events_raised c args overflow_buf env s]
    exact hr
  obtain ⟨he, -, htr⟩ := loopBody_raised c args overflow_buf env s hb
  set gas := args.gradient_accumulation_steps with hgas
  set k := (s.training_steps + 1) % gas with hkdef
  have hklt : k < gas := Nat.mod_lt _ hgaspos
  have hlenpos : 0 < envs.length := by omega
  refine ⟨by rw [he], ?_, by omega⟩
  rw [runLoop_quiet_flags c args overflow_buf envs
    (loopBody c args overflow_buf env s).1 hq]
  simp only [htr]
  have hmod : ∀ j : ℕ, (s.training_steps + 1 + j + 1) % gas =
      (k + j + 1) % gas := by
    intro j
    have h1 : s.training_steps + 1 + j + 1 =
        (s.training_steps + 1) + (j + 1) := by omega
    have h2 : k + j + 1 = k + (j + 1) := by omega
    rw [h1, h2, Nat.add_mod, Nat.add_mod k (j + 1),
      Nat.mod_eq_of_lt hklt, ← hkdef]
  have hcongr : (List.range envs.length).map
      (fun j => decide ((s.training_steps + 1 + j + 1) % gas = 0)) =
      (List.range envs.length).map
        (fun j => decide ((k + j + 1) % gas = 0)) :=
    List.map_congr_left (fun j _ => by rw [hmod j])
  rw [hcongr]
  exact range_map_boundary envs.length k gas hk hlenpos (by omega)

/-- Witness for C10: a drop at local_step 2 of a 4-step window is followed by
a window of exactly 2 = 4 - 2 micro-steps. -/
theorem c10_drop_shortens_next_window_witness :
    ((runLoop idCollab exLoopArgs 0
      (loopBody idCollab exLoopArgs 0 exDropEnv exDropState).1
      [exQuietEnv, exQuietEnv]).2).map (fun ev => ev.is_optimizer_step) =
      [false, true] ∧
    (2 : ℕ) < exLoopArgs.gradient_accumulation_steps := by
  have h := c10_drop_shortens_next_window idCollab exLoopArgs 0 exDropState
    exDropEnv [exQuietEnv, exQuietEnv] (by decide) (by decide) (by decide)
    (by
      intro e he
      simp only [List.mem_cons, List.not_mem_nil, or_false] at he
      rcases he with h1 | h1 <;> (subst h1; rfl))
    (by decide)
  refine ⟨?_, by simpa using h.2.2⟩
  simpa using h.2.1

/-- A non-boundary micro-step never raises and its sole ComputeState effect
is adding the recorded mini_batch_size to the computed count. -/
theorem loopBody_nonboundary (c : Collab) (args : Args) (overflow_buf : ℕ)
    (env : MicroEnv) (s : LoopState)
    (hnb : (loopBody c args overflow_buf env s).2.is_optimizer_step
      = false) :
    (loopBody c args overflow_buf env s).2.raised = false ∧
    (loopBody c args overflow_buf env s).1.cs =
      { s.cs with computed_batch_size :=
          s.cs.computed_batch_size + s.cs.mini_batch_size } := by
  revert hnb
  unfold loopBody
  dsimp only
  split
  · intro h
    simp at h
  · next hcond =>
    intro _
    have hor := Bool.or_eq_false_iff.mp (Bool.eq_false_iff.mpr hcond)
    simp [hor.2]

/-- At a boundary the ComputeState is reset to zero, and the reduced count
reported there is the cluster reduce of the pre-boundary computed count
(including this micro-step's contribution when it completed). -/
theorem loopBody_boundary_cs (c : Collab) (args : Args) (overflow_buf : ℕ)
    (env : MicroEnv) (s : LoopState)
    (hb : (loopBody c args overflow_buf env s).2.is_optimizer_step = true) :
    (loopBody c args overflow_buf env s).1.cs.computed_batch_size = 0 ∧
    (loopBody c args overflow_buf env s).2.reduced_count =
      c.reduceCount (s.cs.computed_batch_size +
        (if (loopBody c args overflow_buf env s).2.raised = true then 0
         else s.cs.mini_batch_size)) := by
  revert hb
  unfold loopBody
  dsimp only
  split
  · intro _
    cases hraised : (runHooks s.timer env.hook_times).2 <;>
      simp [hraised, ComputeState.reset_state]
  · intro hb
    simp at hb

/-- Over a run with no boundary, the computed count grows by number-of-steps
times the recorded mini_batch_size. -/
theorem runLoop_no_boundary_count (c : Collab) (args : Args)
    (overflow_buf : ℕ) :
    ∀ (envs : List MicroEnv) (s : LoopState),
      (∀ ev ∈ (runLoop c args overflow_buf s envs).2,
        ev.is_optimizer_step = false) →
      (runLoop c args overflow_buf s envs).1.cs =
        { s.cs with computed_batch_size :=
            s.cs.computed_batch_size +
              envs.length * s.cs.mini_batch_size } := by
  intro envs
  induction envs with
  | nil =>
    intro s _
    show s.cs = _
    simp
  | cons e es ih =>
    intro s hflag
    have hexp : (runLoop c args overflow_buf s (e :: es)).2 =
        (loopBody c args overflow_buf e s).2 ::
        (runLoop c args overflow_buf (loopBody c args overflow_buf e s).1
          es).2 := rfl
    have h0 : (loopBody c args overflow_buf e s).2.is_optimizer_step
        = false := by
      refine hflag _ ?_
      rw [hexp]
      exact List.mem_cons_self _ _
    have hcs := (loopBody_nonboundary c args overflow_buf e s h0).2
    have hrest := ih (loopBody c args overflow_buf e s).1 (by
      intro ev hev
      refine hflag ev ?_
      rw [hexp]
      exact List.mem_cons_of_mem _ hev)
    show (runLoop c args overflow_buf
      (loopBody c args overflow_buf e s).1 es).1.cs = _
    rw [hrest, hcs]
    have harith : s.cs.computed_batch_size + s.cs.mini_batch_size +
        es.length * s.cs.mini_batch_size =
        s.cs.computed_batch_size +
          (e :: es).length * s.cs.mini_batch_size := by
      simp [List.length_cons]
      ring
    simp only [harith]

/-- Concrete args with accumulation factor 2 on the habana path. -/
def exC3Args : Args :=
  { exLoopArgs with gradient_accumulation_steps := 2 }

/-- Counterexample to C3: in the first macro-step window of a fresh run both
micro-steps (batch size 4 each) complete, yet the cluster-reduced computed
count observed at the boundary is 0, not 4 + 4 = 8, because the recorded
mini_batch_size is still its process-start value 0 throughout the first
window. -/
theorem c3_counterexample_first_window :
    ((runLoop idCollab exC3Args 0 (initLoopState 0)
      [exQuietEnv, exQuietEnv]).2).map
        (fun ev => (ev.is_optimizer_step, ev.recorded_compute,
          ev.reduced_count)) = [(false, true, 0), (true, true, 0)] ∧
    exQuietEnv.batch_size + exQuietEnv.batch_size = 8 ∧
    (0 : ℕ) ≠ 8 := by
  refine ⟨?_, rfl, by decide⟩
  decide

/-- C3 (amended): the computed count is reset to zero exactly at a boundary's
reset_state and is unchanged by a dropped micro-step; every completed
micro-step adds the recorded mini_batch_size (so the count never decreases
within a window); the value reduced at a boundary is the cluster reduce of
recorded-size times completed-steps — which equals the sum of the completed
micro-steps' own batch sizes whenever the recorded size matches them, i.e.
for every window after the first (whose recorded size is 0). -/
theorem c3_computed_count_accounting (c : Collab) (args : Args)
    (overflow_buf : ℕ) :
    (∀ env s, (loopBody c args overflow_buf env s).2.is_optimizer_step
        = false →
      (loopBody c args overflow_buf env s).1.cs.computed_batch_size =
        s.cs.computed_batch_size + s.cs.mini_batch_size) ∧
    (∀ env s, (loopBody c args overflow_buf env s).2.is_optimizer_step
        = true →
      (loopBody c args overflow_buf env s).1.cs.computed_batch_size = 0 ∧
      (loopBody c args overflow_buf env s).2.reduced_count =
        c.reduceCount (s.cs.computed_batch_size +
          (if (loopBody c args overflow_buf env s).2.raised = true then 0
           else s.cs.mini_batch_size))) ∧
    (∀ envs s, (∀ ev ∈ (runLoop c args overflow_buf s envs).2,
        ev.is_optimizer_step = false) →
      (runLoop c args overflow_buf s envs).1.cs.computed_batch_size =
        s.cs.computed_batch_size + envs.length * s.cs.mini_batch_size) := by
  refine ⟨?_, ?_, ?_⟩
  · intro env s hnb
    rw [(loopBody_nonboundary c args overflow_buf env s hnb).2]
  · intro env s hb
    exact loopBody_boundary_cs c args overflow_buf env s hb
  · intro envs s hflag
    rw [runLoop_no_boundary_count c args overflow_buf envs s hflag]

/-- Witness for C3 (amended) on a concrete boundary-free two-step run. -/
theorem c3_computed_count_accounting_witness :
    (runLoop idCollab exLoopArgs 0 (initLoopState 0)
      [exQuietEnv, exQuietEnv]).1.cs.computed_batch_size =
      (initLoopState 0).cs.computed_batch_size +
        2 * (initLoopState 0).cs.mini_batch_size :=
  (c3_computed_count_accounting idCollab exLoopArgs 0).2.2
    [exQuietEnv, exQuietEnv] (initLoopState 0)
    (fun ev hev => by
      have hall : ((runLoop idCollab exLoopArgs 0 (initLoopState 0)
          [exQuietEnv, exQuietEnv]).2).all
            (fun ev => !ev.is_optimizer_step) = true := by decide
      have hmem := List.all_eq_true.mp hall ev hev
      simpa using hmem)

end BertPretraining
